import Mathlib

/-!
Verification of the oi-volume-app backend core.

The Python sources under `backend/app` are embedded shallowly:
* numeric values (prices, open interest, volumes, percentages) are rationals;
* Python dictionary lookups with defaults (`d.get(k, v)`) become `Option`
  fields read with `Option.getD`;
* direction markers are the literal strings the code uses.

Files embedded: `app/services/parser.py` (flow classifier),
`app/services/nse_client.py` (resilient fetcher, as a pure function of the
attempt outcomes and the cache state), `app/routers/option_chain.py`
(summary endpoint control flow).
-/

namespace OiVolume

/-- From `parser.py`: `_price_direction(last_price, prev_price)`.
Python `if not prev_price` is `prev_price == 0` for numeric input. -/
def price_direction (last_price prev_price : ℚ) : String × ℚ :=
  if prev_price = 0 then ("→", 0)
  else
    let price_change_pct := ((last_price - prev_price) / prev_price) * 100
    if price_change_pct ≥ 0.5 then ("↑", price_change_pct)
    else if price_change_pct ≤ -0.5 then ("↓", price_change_pct)
    else ("→", price_change_pct)

/-- From `parser.py`: `_oi_direction(open_interest, prev_open_interest)`.
Returns (direction, oi_change, oi_change_pct). -/
def oi_direction (open_interest prev_open_interest : ℚ) : String × ℚ × ℚ :=
  let oi_change := open_interest - prev_open_interest
  if prev_open_interest = 0 then ("→", oi_change, 0)
  else
    let oi_change_pct := (oi_change / prev_open_interest) * 100
    if oi_change_pct > 1 then ("↑", oi_change, oi_change_pct)
    else if oi_change_pct < -1 then ("↓", oi_change, oi_change_pct)
    else ("→", oi_change, oi_change_pct)

/-- From `parser.py`: `_volume_direction(volume, avg_volume, top_20_threshold)`.
`top_20_threshold` may be `None` (empty side) and Python tests its truthiness:
`None` and `0` both disable the threshold branch, which is exactly
`top_20.getD 0 ≠ 0`. Returns (direction, volume_ratio). -/
def volume_direction (volume avg_volume : ℚ) (top_20 : Option ℚ) : String × ℚ :=
  let volume_ratio := if avg_volume = 0 then 0 else volume / avg_volume
  if volume_ratio ≥ 1.2 ∨ (top_20.getD 0 ≠ 0 ∧ volume ≥ top_20.getD 0) then
    ("↑", volume_ratio)
  else if volume_ratio ≤ 0.8 then ("↓", volume_ratio)
  else ("→", volume_ratio)

/-- From `parser.py`: `_interpret(price_dir, oi_dir, vol_dir)`. -/
def interpret (price_dir oi_dir vol_dir : String) : String × String :=
  if price_dir = "↑" ∧ oi_dir = "↑" ∧ vol_dir = "↑" then
    ("Strong Long Build-up", "Fresh bullish positions added aggressively.")
  else if price_dir = "↓" ∧ oi_dir = "↑" ∧ vol_dir = "↑" then
    ("Strong Short Build-up", "Bearish positions building with conviction.")
  else if price_dir = "↑" ∧ oi_dir = "↓" ∧ vol_dir = "↑" then
    ("Short Covering", "Short sellers exiting positions rapidly. Fast upside move possible.")
  else if price_dir = "↓" ∧ oi_dir = "↓" ∧ vol_dir = "↑" then
    ("Long Unwinding", "Bulls exiting positions. Trend weakening.")
  else if price_dir = "→" ∧ oi_dir = "↑" ∧ vol_dir = "↓" then
    ("Quiet Position Building", "Smart money accumulation without price movement.")
  else if price_dir = "→" ∧ oi_dir = "↓" ∧ vol_dir = "↓" then
    ("No Interest Zone", "Low participation. Time decay dominates.")
  else ("Mixed", "Signals are not aligned.")

/-- From `parser.py`: `_confidence(price_change_pct, oi_change, volume_ratio, vol_dir)`. -/
def confidence (price_change_pct oi_change volume_ratio : ℚ) (vol_dir : String) : ℚ :=
  let score : ℚ := 50
  let score := if |price_change_pct| ≥ 0.5 then score + 15 else score
  let score := if |oi_change| > 0 then score + 15 else score
  let score := if vol_dir = "↑" then score + 20 else score
  let score := if volume_ratio ≥ 1.5 then score + 5 else score
  max 0 (min 100 score)

/-- From `parser.py`: the inner `_tag(vol_dir, oi_dir)` of `build_oi_volume_summary`. -/
def ui_tag (vol_dir oi_dir : String) : String :=
  if vol_dir = "↑" ∧ oi_dir = "↑" then "🔥 Aggressive"
  else if vol_dir = "↑" ∧ oi_dir = "↓" then "⚡ Exit Activity"
  else if vol_dir = "↓" then "💤 Low Participation"
  else "—"

/-- One side's raw JSON fields (`item["CE"]` / `item["PE"]`); a `none` field is
an absent key (Python `.get` then falls back to its default). -/
structure SideJson where
  openInterest : Option ℚ := none
  changeinOpenInterest : Option ℚ := none
  totalTradedVolume : Option ℚ := none
  lastPrice : Option ℚ := none
  prevPrice : Option ℚ := none
  previousClose : Option ℚ := none
  prevOpenInterest : Option ℚ := none
  previousOpenInterest : Option ℚ := none
  deriving Repr, Inhabited

/-- One entry of `records.data`. -/
structure ItemJson where
  strikePrice : Option ℚ := none
  CE : Option SideJson := none
  PE : Option SideJson := none
  deriving Repr, Inhabited

/-- The `records` object of the upstream payload. -/
structure RecordsJson where
  data : Option (List ItemJson) := none
  expiryDates : Option (List String) := none
  underlyingValue : Option ℚ := none
  timestamp : Option String := none
  deriving Repr, Inhabited

/-- The upstream option-chain payload (`nse_json`). -/
structure NseJson where
  records : Option RecordsJson := none
  deriving Repr, Inhabited

/-- Everything `build_oi_volume_summary` computes for one side of one strike. -/
structure SideResult where
  oi : ℚ
  doi : ℚ
  vol : ℚ
  last : ℚ
  prev : ℚ
  prev_oi : ℚ
  price_dir : String
  price_pct : ℚ
  oi_dir : String
  oi_change : ℚ
  oi_change_pct : ℚ
  vol_dir : String
  vol_ratio : ℚ
  label : String
  desc : String
  conf : ℚ
  strength : ℚ
  tag : String
  price_change : ℚ
  deriving Repr, Inhabited, DecidableEq

/-- The per-side body of `build_oi_volume_summary`'s row loop: field extraction
with Python's `.get` default chains, then the direction / noise / label /
confidence / strength / tag computations, verbatim from the source. -/
def classify_side (side : Option SideJson) (avg_vol : ℚ) (top_20 : Option ℚ) : SideResult :=
  let s := side.getD {}
  let oi := s.openInterest.getD 0
  let doi := s.changeinOpenInterest.getD 0
  let vol := s.totalTradedVolume.getD 0
  let last := s.lastPrice.getD 0
  let prev := s.prevPrice.getD (s.previousClose.getD 0)
  let prev_oi := s.prevOpenInterest.getD (s.previousOpenInterest.getD (oi - doi))
  let pd := price_direction last prev
  let od := oi_direction oi prev_oi
  let vd := volume_direction vol avg_vol top_20
  let noise := |od.2.2| < 0.5 ∧ vd.2 < 1.1
  let ld := if noise then ("Noise", "Ignored due to low OI change and volume.")
            else interpret pd.1 od.1 vd.1
  { oi := oi, doi := doi, vol := vol, last := last, prev := prev, prev_oi := prev_oi
    price_dir := pd.1, price_pct := pd.2
    oi_dir := od.1, oi_change := od.2.1, oi_change_pct := od.2.2
    vol_dir := vd.1, vol_ratio := vd.2
    label := ld.1, desc := ld.2
    conf := confidence pd.2 od.2.1 vd.2 vd.1
    strength := vd.2 * 2 + |od.2.2| + |pd.2|
    tag := ui_tag vd.1 od.1
    price_change := if prev = 0 then 0 else last - prev }

/-- From `parser.py`: the per-side top-20% volume threshold
`sorted(vols, reverse=True)[max(0, int(n * 0.2) - 1)] if vols else None`.
Python's `int(n * 0.2)` truncates toward zero and agrees with natural
division `n / 5` at every list length arising here; `max(0, · - 1)` is
natural subtraction. The index is always `< n`, so `getD`'s default is
never read. -/
def top_20_threshold (vols : List ℚ) : Option ℚ :=
  if vols = [] then none
  else
    let sorted_desc := List.insertionSort (fun a b => a ≥ b) vols
    some (sorted_desc.getD (vols.length / 5 - 1) 0)

/-- One output row of `build_oi_volume_summary`; the two contexts are the
`CE_ContextTag` / `PE_ContextTag` fields. -/
structure Row where
  strike : Option ℚ
  spot : Option ℚ
  ce : SideResult
  ce_context : Option String
  pe : SideResult
  pe_context : Option String
  signal : String
  deriving Repr, Inhabited, DecidableEq

/-- The context tag a CE label carries (`Resistance Zone` / `Resistance weakening`). -/
def ce_context_of (label : String) : Option String :=
  if label = "Strong Short Build-up" then some "Resistance Zone"
  else if label = "Short Covering" then some "Resistance weakening"
  else none

/-- The context tag a PE label carries (`Support Zone` / `Support strengthening`). -/
def pe_context_of (label : String) : Option String :=
  if label = "Strong Short Build-up" then some "Support Zone"
  else if label = "Short Covering" then some "Support strengthening"
  else none

/-- From `parser.py`: `build_oi_volume_summary(nse_json)`. -/
def build_oi_volume_summary (nse_json : NseJson) : List Row :=
  let records := nse_json.records.getD {}
  let data := records.data.getD []
  let spot := records.underlyingValue
  let ce_vols := data.map fun item => ((item.CE.getD {}).totalTradedVolume).getD 0
  let pe_vols := data.map fun item => ((item.PE.getD {}).totalTradedVolume).getD 0
  let ce_avg_vol : ℚ := if ce_vols = [] then 0 else ce_vols.sum / ce_vols.length
  let pe_avg_vol : ℚ := if pe_vols = [] then 0 else pe_vols.sum / pe_vols.length
  let ce_top_20 := top_20_threshold ce_vols
  let pe_top_20 := top_20_threshold pe_vols
  data.map fun item =>
    let ce := classify_side item.CE ce_avg_vol ce_top_20
    let pe := classify_side item.PE pe_avg_vol pe_top_20
    let signal :=
      if pe.doi > ce.doi ∧ pe.vol > ce.vol then "PE Buildup (Bearish)"
      else if ce.doi > pe.doi ∧ ce.vol > pe.vol then "CE Buildup (Bullish)"
      else "Neutral"
    { strike := item.strikePrice, spot := spot
      ce := ce, ce_context := ce_context_of ce.label
      pe := pe, pe_context := pe_context_of pe.label
      signal := signal }

/-- The observable outcome of one attempt of `_request_json`'s loop: a
successful, non-empty JSON payload, or a failure (HTTP 401/403, another bad
status, a network exception, or an empty body) with its error string. -/
inductive AttemptOutcome (α : Type) where
  | ok (payload : α)
  | fail (err : String)

/-- From `nse_client.py`: the tail of `_request_json` — look the key up in
`_LAST_GOOD_CACHE`; a hit younger than `_LAST_GOOD_CACHE_TTL_SEC = 120`
seconds is returned, otherwise `ValueError` with the last error string. -/
def cache_fallback {α : Type} (cache : Option (ℚ × α)) (now : ℚ)
    (context last_error : String) : Except String α :=
  match cache with
  | some (ts, payload) =>
      if now - ts ≤ 120 then Except.ok payload
      else Except.error ("NSE " ++ context ++ " failed after retries: " ++ last_error)
  | none => Except.error ("NSE " ++ context ++ " failed after retries: " ++ last_error)

/-- From `nse_client.py`: `for attempt in range(3)` of `_request_json`, as a
fuelled recursion over the sequence of attempt outcomes the environment
produces. A success returns its payload at once; a failure records its error
string and moves to the next attempt; exhausted fuel falls back to the cache. -/
def request_json_loop {α : Type} :
    Nat → List (AttemptOutcome α) → Option (ℚ × α) → ℚ → String → String → Except String α
  | 0, _, cache, now, context, last_error => cache_fallback cache now context last_error
  | _ + 1, [], cache, now, context, last_error => cache_fallback cache now context last_error
  | _ + 1, AttemptOutcome.ok payload :: _, _, _, _, _ => Except.ok payload
  | n + 1, AttemptOutcome.fail err :: rest, cache, now, context, _ =>
      request_json_loop n rest cache now context err

/-- From `nse_client.py`: `_request_json(url, params, context)` as a function
of the attempt outcomes, the cache entry stored under the canonical key, and
the time of the fallback check; `last_error` starts as "Unknown error". -/
def request_json {α : Type} (attempts : List (AttemptOutcome α))
    (cache : Option (ℚ × α)) (now : ℚ) (context : String) : Except String α :=
  request_json_loop 3 attempts cache now context "Unknown error"

/-- The derived target projection: support / resistance strike levels. -/
structure TargetProjection where
  support : Option ℚ
  resistance : Option ℚ
  deriving Repr, Inhabited

/-- The greatest element of a list of rationals, `none` on the empty list. -/
def max_opt : List ℚ → Option ℚ
  | [] => none
  | k :: t =>
    match max_opt t with
    | none => some k
    | some m => some (max k m)

/-- The least element of a list of rationals, `none` on the empty list. -/
def min_opt : List ℚ → Option ℚ
  | [] => none
  | k :: t =>
    match min_opt t with
    | none => some k
    | some m => some (min k m)

/-- The strikes strictly below spot whose put side carries a
support-indicating label (a PE context tag). -/
def support_candidates (rows : List Row) (spot : ℚ) : List ℚ :=
  rows.filterMap fun row =>
    match row.strike, row.pe_context with
    | some k, some _ => if k < spot then some k else none
    | _, _ => none

/-- The strikes strictly above spot whose call side carries a
resistance-indicating label (a CE context tag). -/
def resistance_candidates (rows : List Row) (spot : ℚ) : List ℚ :=
  rows.filterMap fun row =>
    match row.strike, row.ce_context with
    | some k, some _ => if spot < k then some k else none
    | _, _ => none

/-- Modelled from the spec: `build_target_projection`, which
`app/routers/option_chain.py` imports from `app.services.parser` but whose
definition is not among the available source files. Spec §4.5: "the nearest
strike below spot whose put side carries a support-indicating label becomes
the support level; the nearest strike above spot whose call side carries a
resistance-indicating label becomes the resistance level. If no row is
support- or resistance-eligible, the projection is declared unavailable
rather than defaulted." A missing spot also leaves it unavailable. -/
def build_target_projection (rows : List Row) (spot : Option ℚ) : Option TargetProjection :=
  match spot with
  | none => none
  | some s =>
    let sup := max_opt (support_candidates rows s)
    let res := min_opt (resistance_candidates rows s)
    if sup = none ∧ res = none then none
    else some { support := sup, resistance := res }

/-- A one-row input used to instantiate the target-projection theorem: strike
100, a support-indicating PE context, spot 105. -/
def projection_witness_row : Row :=
  { strike := some 100, spot := some 105, ce := default, ce_context := none
    pe := default, pe_context := some "Support Zone", signal := "Neutral" }

/-- A side used to instantiate the non-noise branch of the noise-filter
theorem: traded volume 5 against side average 1 gives volume ratio 5 ≥ 1.1. -/
def noise_witness_side : SideJson :=
  { totalTradedVolume := some 5 }

/-- What `/option-chain/summary` produces: an `HTTPException` with a status
and detail, or the successful response body (meta spot, target projection,
rows). -/
inductive SummaryResult where
  | httpError (status : Nat) (detail : String)
  | success (spot : Option ℚ) (target : Option TargetProjection) (rows : List Row)

/-- From `option_chain.py`: the control flow of `option_chain_summary` after
the fetch (or sample load), as a function of the fetch's outcome: a fetch
failure becomes HTTP 502 carrying the error's message; an empty normalized
row list becomes HTTP 502 with a fixed message; otherwise the response
carries the full row list, the spot, and the target projection. -/
def option_chain_summary (fetched : Except String NseJson) : SummaryResult :=
  match fetched with
  | Except.error e => SummaryResult.httpError 502 e
  | Except.ok raw =>
    let records := raw.records.getD {}
    let rows := build_oi_volume_summary raw
    if rows = [] then
      SummaryResult.httpError 502 "No option chain data returned from NSE."
    else
      SummaryResult.success records.underlyingValue
        (build_target_projection rows records.underlyingValue) rows

lemma max_opt_eq_none {l : List ℚ} : max_opt l = none ↔ l = [] := by
  cases l with
  | nil => simp [max_opt]
  | cons k t =>
    cases h : max_opt t <;> simp [max_opt, h]

lemma min_opt_eq_none {l : List ℚ} : min_opt l = none ↔ l = [] := by
  cases l with
  | nil => simp [min_opt]
  | cons k t =>
    cases h : min_opt t <;> simp [min_opt, h]

lemma max_opt_spec {l : List ℚ} {m : ℚ} (h : max_opt l = some m) :
    m ∈ l ∧ ∀ x ∈ l, x ≤ m := by
  induction l generalizing m with
  | nil => cases h
  | cons k t ih =>
    cases ht : max_opt t with
    | none =>
      rw [max_opt, ht] at h
      injection h with hk
      subst hk
      have : t = [] := max_opt_eq_none.mp ht
      subst this
      simp
    | some m' =>
      rw [max_opt, ht] at h
      injection h with hk
      subst hk
      obtain ⟨hmem, hub⟩ := ih ht
      constructor
      · rcases le_total k m' with hkm | hkm
        · rw [max_eq_right hkm]
          exact List.mem_cons_of_mem _ hmem
        · rw [max_eq_left hkm]
          exact List.mem_cons_self _ _
      · intro x hx
        rcases List.mem_cons.mp hx with rfl | hx
        · exact le_max_left _ _
        · exact le_trans (hub x hx) (le_max_right _ _)

lemma min_opt_spec {l : List ℚ} {m : ℚ} (h : min_opt l = some m) :
    m ∈ l ∧ ∀ x ∈ l, m ≤ x := by
  induction l generalizing m with
  | nil => cases h
  | cons k t ih =>
    cases ht : min_opt t with
    | none =>
      rw [min_opt, ht] at h
      injection h with hk
      subst hk
      have : t = [] := min_opt_eq_none.mp ht
      subst this
      simp
    | some m' =>
      rw [min_opt, ht] at h
      injection h with hk
      subst hk
      obtain ⟨hmem, hub⟩ := ih ht
      constructor
      · rcases le_total k m' with hkm | hkm
        · rw [min_eq_left hkm]
          exact List.mem_cons_self _ _
        · rw [min_eq_right hkm]
          exact List.mem_cons_of_mem _ hmem
      · intro x hx
        rcases List.mem_cons.mp hx with rfl | hx
        · exact min_le_left _ _
        · exact le_trans (min_le_right _ _) (hub x hx)

lemma mem_support_candidates {rows : List Row} {s k : ℚ} :
    k ∈ support_candidates rows s ↔
      ∃ row ∈ rows, row.strike = some k ∧ row.pe_context.isSome ∧ k < s := by
  unfold support_candidates
  rw [List.mem_filterMap]
  constructor
  · rintro ⟨row, hrow, hf⟩
    cases hst : row.strike with
    | none => rw [hst] at hf; cases hf
    | some k' =>
      cases hpc : row.pe_context with
      | none => rw [hst, hpc] at hf; cases hf
      | some c =>
        rw [hst, hpc] at hf
        by_cases hks : k' < s
        · simp only [hks, if_true] at hf
          injection hf with hk
          subst hk
          exact ⟨row, hrow, hst, by simp [hpc], hks⟩
        · simp only [hks, if_false] at hf
          exact Option.noConfusion hf
  · rintro ⟨row, hrow, hst, hpc, hks⟩
    refine ⟨row, hrow, ?_⟩
    obtain ⟨c, hc⟩ := Option.isSome_iff_exists.mp hpc
    rw [hst, hc]
    simp [hks]

lemma mem_resistance_candidates {rows : List Row} {s k : ℚ} :
    k ∈ resistance_candidates rows s ↔
      ∃ row ∈ rows, row.strike = some k ∧ row.ce_context.isSome ∧ s < k := by
  unfold resistance_candidates
  rw [List.mem_filterMap]
  constructor
  · rintro ⟨row, hrow, hf⟩
    cases hst : row.strike with
    | none => rw [hst] at hf; cases hf
    | some k' =>
      cases hpc : row.ce_context with
      | none => rw [hst, hpc] at hf; cases hf
      | some c =>
        rw [hst, hpc] at hf
        by_cases hks : s < k'
        · simp only [hks, if_true] at hf
          injection hf with hk
          subst hk
          exact ⟨row, hrow, hst, by simp [hpc], hks⟩
        · simp only [hks, if_false] at hf
          exact Option.noConfusion hf
  · rintro ⟨row, hrow, hst, hpc, hks⟩
    refine ⟨row, hrow, ?_⟩
    obtain ⟨c, hc⟩ := Option.isSome_iff_exists.mp hpc
    rw [hst, hc]
    simp [hks]

/-- C4: for arbitrary finite numeric inputs, the confidence score equals the
clamp to [0, 100] of 50, plus 15 if |price change%| ≥ 0.5, plus 15 if the OI
change is nonzero, plus 20 if the volume direction is up, plus 5 if the volume
ratio ≥ 1.5; in particular the result always lies within [0, 100]. -/
theorem confidence_clamp_formula (price_change_pct oi_change volume_ratio : ℚ)
    (vol_dir : String) :
    confidence price_change_pct oi_change volume_ratio vol_dir =
      max 0 (min 100 (50 + (if |price_change_pct| ≥ 0.5 then (15 : ℚ) else 0)
        + (if oi_change ≠ 0 then (15 : ℚ) else 0)
        + (if vol_dir = "↑" then (20 : ℚ) else 0)
        + (if volume_ratio ≥ 1.5 then (5 : ℚ) else 0))) ∧
    0 ≤ confidence price_change_pct oi_change volume_ratio vol_dir ∧
    confidence price_change_pct oi_change volume_ratio vol_dir ≤ 100 := by
  have h : confidence price_change_pct oi_change volume_ratio vol_dir =
      max 0 (min 100 (50 + (if |price_change_pct| ≥ 0.5 then (15 : ℚ) else 0)
        + (if oi_change ≠ 0 then (15 : ℚ) else 0)
        + (if vol_dir = "↑" then (20 : ℚ) else 0)
        + (if volume_ratio ≥ 1.5 then (5 : ℚ) else 0))) := by
    simp only [confidence, gt_iff_lt, abs_pos]
    split_ifs <;> norm_num
  exact ⟨h, h ▸ le_max_left _ _, h ▸ max_le (by norm_num) (min_le_left _ _)⟩

/-- C10: the confidence score is always at least 50: the base is 50 and only
non-negative bonuses are added, so the lower clamp at 0 is unreachable. -/
theorem confidence_at_least_fifty (price_change_pct oi_change volume_ratio : ℚ)
    (vol_dir : String) :
    50 ≤ confidence price_change_pct oi_change volume_ratio vol_dir := by
  simp only [confidence]
  split_ifs <;>
    · refine le_max_of_le_right (le_min (by norm_num) (by norm_num))

/-- C6: whenever the previous price is 0 (or absent, which the field defaults
render as 0), the price direction is neutral and the change% is exactly 0;
otherwise change% = (last − prev)/prev × 100 with direction up when
change% ≥ 0.5, down when change% ≤ −0.5, and neutral otherwise. -/
theorem price_direction_correct (last_price prev_price : ℚ) :
    (prev_price = 0 → price_direction last_price prev_price = ("→", 0)) ∧
    (prev_price ≠ 0 →
      price_direction last_price prev_price =
        (if ((last_price - prev_price) / prev_price) * 100 ≥ 0.5 then "↑"
         else if ((last_price - prev_price) / prev_price) * 100 ≤ -0.5 then "↓"
         else "→", ((last_price - prev_price) / prev_price) * 100)) := by
  constructor
  · intro h
    simp [price_direction, h]
  · intro h
    simp only [price_direction, if_neg h]
    split_ifs <;> rfl

/-- C6 witness at a concrete input: previous price 0 gives a neutral
direction and a zero change%. -/
theorem price_direction_correct_witness : price_direction 110 0 = ("→", 0) :=
  (price_direction_correct 110 0).1 rfl

/-- C7: when the previous open interest is 0 (or absent), the OI direction is
neutral and the change% is 0; otherwise, whenever
(OI − prevOI)/prevOI × 100 lies strictly between −1 and 1, the direction is
neutral (and the reported change% is that value). -/
theorem oi_direction_correct (open_interest prev_open_interest : ℚ) :
    (prev_open_interest = 0 →
      oi_direction open_interest prev_open_interest =
        ("→", open_interest - prev_open_interest, 0)) ∧
    (prev_open_interest ≠ 0 →
      -1 < ((open_interest - prev_open_interest) / prev_open_interest) * 100 →
      ((open_interest - prev_open_interest) / prev_open_interest) * 100 < 1 →
      oi_direction open_interest prev_open_interest =
        ("→", open_interest - prev_open_interest,
          ((open_interest - prev_open_interest) / prev_open_interest) * 100)) := by
  constructor
  · intro h
    simp [oi_direction, h]
  · intro h h1 h2
    simp only [oi_direction, if_neg h]
    split_ifs with h3 h4
    · exact absurd h3 (by push_neg; linarith)
    · exact absurd h4 (by push_neg; linarith)
    · rfl

/-- C7 witness at a concrete input: OI 100 against previous OI 100 gives
change% 0 ∈ (−1, 1) and a neutral direction. -/
theorem oi_direction_correct_witness :
    oi_direction 100 100 = ("→", 100 - 100, ((100 - 100 : ℚ) / 100) * 100) :=
  (oi_direction_correct 100 100).2 (by norm_num) (by norm_num) (by norm_num)

/-- C3: for every side input, whenever the computed |OI change%| < 0.5 and the
computed volume ratio < 1.1, the side's interpretation label is exactly
"Noise" with the fixed noise description, regardless of the price, OI, and
volume directions; otherwise the label and description are exactly what the
interpretation matrix produces from the side's three directions. -/
theorem noise_label_overrides (side : Option SideJson) (avg_vol : ℚ) (top_20 : Option ℚ) :
    ((|(classify_side side avg_vol top_20).oi_change_pct| < 0.5 ∧
        (classify_side side avg_vol top_20).vol_ratio < 1.1) →
      (classify_side side avg_vol top_20).label = "Noise" ∧
      (classify_side side avg_vol top_20).desc =
        "Ignored due to low OI change and volume.") ∧
    (¬(|(classify_side side avg_vol top_20).oi_change_pct| < 0.5 ∧
        (classify_side side avg_vol top_20).vol_ratio < 1.1) →
      ((classify_side side avg_vol top_20).label,
        (classify_side side avg_vol top_20).desc) =
        interpret (classify_side side avg_vol top_20).price_dir
          (classify_side side avg_vol top_20).oi_dir
          (classify_side side avg_vol top_20).vol_dir) := by
  constructor
  · intro h
    simp only [classify_side] at h ⊢
    rw [if_pos h]
    exact ⟨rfl, rfl⟩
  · intro h
    simp only [classify_side] at h ⊢
    rw [if_neg h]

/-- C3 witness at concrete inputs: an all-absent side has OI change% 0 and
volume ratio 0, hence label "Noise"; a side with volume 5 against average 1
has ratio 5, fails the noise test, and its label and description are the
interpretation matrix's output. -/
theorem noise_label_overrides_witness :
    ((classify_side none 0 none).label = "Noise" ∧
      (classify_side none 0 none).desc = "Ignored due to low OI change and volume.") ∧
    ((classify_side (some noise_witness_side) 1 none).label,
      (classify_side (some noise_witness_side) 1 none).desc) =
      interpret (classify_side (some noise_witness_side) 1 none).price_dir
        (classify_side (some noise_witness_side) 1 none).oi_dir
        (classify_side (some noise_witness_side) 1 none).vol_dir := by
  constructor
  · exact (noise_label_overrides none 0 none).1
      ⟨by norm_num [classify_side, oi_direction],
        by norm_num [classify_side, volume_direction]⟩
  · exact (noise_label_overrides (some noise_witness_side) 1 none).2
      (by norm_num [classify_side, noise_witness_side, oi_direction, volume_direction])

/-- C5 counterexample: at volume 0, side-average volume 0 and top-20%
threshold 0 (a side whose strikes all traded 0), the claim's up-condition
`volume ≥ threshold` holds, yet the code returns direction down, because
Python's truthiness test `top_20_threshold and volume >= top_20_threshold`
disables the threshold branch when the threshold is 0. -/
theorem volume_direction_zero_threshold_cex :
    (0 : ℚ) ≥ (0 : ℚ) ∧ (volume_direction 0 0 (some 0)).1 ≠ "↑" := by
  refine ⟨le_refl 0, ?_⟩
  norm_num [volume_direction]
  decide

/-- C5 as amended: the ratio is volume/avgVolume (0 when avgVolume is 0); the
direction is up exactly when ratio ≥ 1.2 or the side's top-20% threshold is
present, nonzero, and volume ≥ threshold; down exactly when no up-condition
holds and ratio ≤ 0.8; neutral exactly otherwise. -/
theorem volume_direction_characterization (volume avg_volume : ℚ) (top_20 : Option ℚ)
    (d : String) (r : ℚ) (h : volume_direction volume avg_volume top_20 = (d, r)) :
    r = (if avg_volume = 0 then 0 else volume / avg_volume) ∧
    (d = "↑" ↔ (r ≥ 1.2 ∨ ∃ t, top_20 = some t ∧ t ≠ 0 ∧ volume ≥ t)) ∧
    (d = "↓" ↔ (¬(r ≥ 1.2 ∨ ∃ t, top_20 = some t ∧ t ≠ 0 ∧ volume ≥ t) ∧ r ≤ 0.8)) ∧
    (d = "→" ↔ (¬(r ≥ 1.2 ∨ ∃ t, top_20 = some t ∧ t ≠ 0 ∧ volume ≥ t) ∧ ¬ r ≤ 0.8)) := by
  have hup : (∃ t, top_20 = some t ∧ t ≠ 0 ∧ volume ≥ t) ↔
      (top_20.getD 0 ≠ 0 ∧ volume ≥ top_20.getD 0) := by
    cases top_20 <;> simp
  simp only [volume_direction] at h
  set vr := if avg_volume = 0 then 0 else volume / avg_volume with hvr
  split_ifs at h with hu hd
  · injection h with hd' hr'
    subst hd'
    subst hr'
    refine ⟨rfl, ?_, ?_, ?_⟩
    · exact iff_of_true rfl (hu.imp id hup.mpr)
    · exact iff_of_false (by decide) (fun hc => hc.1 (hu.imp id hup.mpr))
    · exact iff_of_false (by decide) (fun hc => hc.1 (hu.imp id hup.mpr))
  · injection h with hd' hr'
    subst hd'
    subst hr'
    refine ⟨rfl, ?_, ?_, ?_⟩
    · exact iff_of_false (by decide) (fun hc => hu (hc.imp id hup.mp))
    · exact iff_of_true rfl ⟨fun hc => hu (hc.imp id hup.mp), hd⟩
    · exact iff_of_false (by decide) (fun hc => hc.2 hd)
  · injection h with hd' hr'
    subst hd'
    subst hr'
    refine ⟨rfl, ?_, ?_, ?_⟩
    · exact iff_of_false (by decide) (fun hc => hu (hc.imp id hup.mp))
    · exact iff_of_false (by decide) (fun hc => hd hc.2)
    · exact iff_of_true rfl ⟨fun hc => hu (hc.imp id hup.mp), hd⟩

/-- C5 witness at a concrete input: volume 5 against average 1 and no
threshold gives ratio 5 and direction up. -/
theorem volume_direction_characterization_witness :
    ("↑" : String) = "↑" ↔
      ((5 : ℚ) ≥ 1.2 ∨ ∃ t, (none : Option ℚ) = some t ∧ t ≠ 0 ∧ (5 : ℚ) ≥ t) :=
  (volume_direction_characterization 5 1 none "↑" 5
    (by norm_num [volume_direction])).2.1

/-- C9: the top-20%-by-volume threshold is absent exactly when the side's
volume list is empty, and for a list of length 1 ≤ n ≤ 5 the index
`max(0, floor(n*0.2) - 1)` is 0, so the threshold is the side's maximum
volume. -/
theorem top_20_threshold_small_n (vols : List ℚ) :
    (top_20_threshold vols = none ↔ vols = []) ∧
    (vols ≠ [] → vols.length ≤ 5 →
      ∃ m, top_20_threshold vols = some m ∧ m ∈ vols ∧ ∀ x ∈ vols, x ≤ m) := by
  constructor
  · unfold top_20_threshold
    split_ifs with h <;> simp [h]
  · intro hne hlen
    have hpos : 0 < vols.length := List.length_pos.mpr hne
    have hidx : vols.length / 5 - 1 = 0 := by omega
    have hsne : List.insertionSort (fun a b => a ≥ b) vols ≠ [] := by
      intro hcon
      have := List.length_insertionSort (fun a b => a ≥ b) vols
      rw [hcon] at this
      simp at this
      omega
    obtain ⟨m, t, hmt⟩ : ∃ m t, List.insertionSort (fun a b => a ≥ b) vols = m :: t := by
      cases hcase : List.insertionSort (fun a b => a ≥ b) vols with
      | nil => exact absurd hcase hsne
      | cons a b => exact ⟨a, b, rfl⟩
    have hsorted : List.Sorted (fun a b => a ≥ b) (m :: t) :=
      hmt ▸ List.sorted_insertionSort (fun a b => a ≥ b) vols
    refine ⟨m, ?_, ?_, ?_⟩
    · unfold top_20_threshold
      rw [if_neg hne, hidx, hmt]
      rfl
    · exact (List.mem_insertionSort (fun a b => a ≥ b)).mp (hmt ▸ List.mem_cons_self m t)
    · intro x hx
      have hxs : x ∈ m :: t :=
        hmt ▸ (List.mem_insertionSort (fun a b => a ≥ b)).mpr hx
      rcases List.mem_cons.mp hxs with h | h
      · exact le_of_eq h
      · exact List.rel_of_sorted_cons hsorted x h

/-- C9 witness at a concrete input: for the three-element volume list
[3, 9, 1] the threshold is its maximum, 9. -/
theorem top_20_threshold_small_n_witness :
    top_20_threshold [3, 9, 1] = some 9 ∧ (9 : ℚ) ∈ [(3 : ℚ), 9, 1] ∧
      ∀ x ∈ [(3 : ℚ), 9, 1], x ≤ (9 : ℚ) := by
  obtain ⟨m, hm, hmem, hub⟩ :=
    (top_20_threshold_small_n [3, 9, 1]).2 (by simp) (by norm_num)
  have h9 : top_20_threshold [3, 9, 1] = some 9 := by
    rw [top_20_threshold, if_neg (by simp : ¬([3, 9, 1] : List ℚ) = [])]
    norm_num [List.insertionSort, List.orderedInsert, List.getD]
  have hm9 : m = 9 := by
    rw [h9] at hm
    exact (Option.some.injEq _ _).mp hm.symm
  exact ⟨h9, hm9 ▸ hmem, hm9 ▸ hub⟩

/-- C2: `_request_json` inspects at most 3 attempts; the first success among
them is returned as is; when all 3 fail, the cached payload for the key is
returned exactly when an entry exists with age ≤ 120 seconds, and otherwise
the call fails with an error carrying the last observed error string — an
entry older than 120 seconds is never returned. -/
theorem request_json_correct {α : Type} (attempts : List (AttemptOutcome α))
    (cache : Option (ℚ × α)) (now : ℚ) (context : String) :
    (request_json attempts cache now context =
      request_json (attempts.take 3) cache now context) ∧
    (∀ p rest, attempts = AttemptOutcome.ok p :: rest →
      request_json attempts cache now context = Except.ok p) ∧
    (∀ e p rest, attempts = AttemptOutcome.fail e :: AttemptOutcome.ok p :: rest →
      request_json attempts cache now context = Except.ok p) ∧
    (∀ e₁ e₂ p rest, attempts =
        AttemptOutcome.fail e₁ :: AttemptOutcome.fail e₂ :: AttemptOutcome.ok p :: rest →
      request_json attempts cache now context = Except.ok p) ∧
    (∀ e₁ e₂ e₃ rest, attempts =
        AttemptOutcome.fail e₁ :: AttemptOutcome.fail e₂ :: AttemptOutcome.fail e₃ :: rest →
      (∀ ts p, cache = some (ts, p) →
        (now - ts ≤ 120 →
          request_json attempts cache now context = Except.ok p) ∧
        (¬ now - ts ≤ 120 →
          request_json attempts cache now context =
            Except.error ("NSE " ++ context ++ " failed after retries: " ++ e₃))) ∧
      (cache = none →
        request_json attempts cache now context =
          Except.error ("NSE " ++ context ++ " failed after retries: " ++ e₃))) := by
  refine ⟨?_, ?_, ?_, ?_, ?_⟩
  · rcases attempts with _ | ⟨a, _ | ⟨b, _ | ⟨c, rest⟩⟩⟩
    · rfl
    · cases a <;> rfl
    · cases a <;> cases b <;> rfl
    · cases a <;> cases b <;> cases c <;> rfl
  · intro p rest h
    subst h
    rfl
  · intro e p rest h
    subst h
    rfl
  · intro e₁ e₂ p rest h
    subst h
    rfl
  · intro e₁ e₂ e₃ rest h
    subst h
    refine ⟨?_, ?_⟩
    · intro ts p hc
      subst hc
      constructor
      · intro hage
        simp only [request_json, request_json_loop, cache_fallback]
        rw [if_pos hage]
      · intro hage
        simp only [request_json, request_json_loop, cache_fallback]
        rw [if_neg hage]
    · intro hc
      subst hc
      rfl

/-- C2 witness at concrete inputs: three failing attempts with a cache entry
30 seconds old return the cached payload; the same attempts with an entry
200 seconds old fail with the last error string; a first-attempt success
returns its payload. -/
theorem request_json_correct_witness :
    request_json [AttemptOutcome.fail "HTTP 403", AttemptOutcome.fail "HTTP 403",
        AttemptOutcome.fail "timeout"] (some ((30 : ℚ), (42 : ℕ))) 60 "option chain" =
      Except.ok 42 ∧
    request_json [AttemptOutcome.fail "HTTP 403", AttemptOutcome.fail "HTTP 403",
        AttemptOutcome.fail "timeout"] (some ((30 : ℚ), (42 : ℕ))) 200 "option chain" =
      Except.error "NSE option chain failed after retries: timeout" ∧
    request_json [AttemptOutcome.ok (7 : ℕ)] none 0 "index data" = Except.ok 7 := by
  refine ⟨?_, ?_, ?_⟩
  · exact (((request_json_correct [AttemptOutcome.fail "HTTP 403",
      AttemptOutcome.fail "HTTP 403", AttemptOutcome.fail "timeout"]
      (some ((30 : ℚ), (42 : ℕ))) 60 "option chain").2.2.2.2 "HTTP 403" "HTTP 403"
      "timeout" [] rfl).1 30 42 rfl).1 (by norm_num)
  · exact (((request_json_correct [AttemptOutcome.fail "HTTP 403",
      AttemptOutcome.fail "HTTP 403", AttemptOutcome.fail "timeout"]
      (some ((30 : ℚ), (42 : ℕ))) 200 "option chain").2.2.2.2 "HTTP 403" "HTTP 403"
      "timeout" [] rfl).1 30 42 rfl).2 (by norm_num)
  · exact (request_json_correct [AttemptOutcome.ok (7 : ℕ)] none 0
      "index data").2.1 7 [] rfl

/-- C1: for every classified row set and spot price, the target projection's
support strike (when present) is ≤ spot — it is the greatest eligible strike
strictly below spot whose put side carries a support-indicating label — and
its resistance strike (when present) is ≥ spot — the least eligible strike
strictly above spot whose call side carries a resistance-indicating label;
when no row is eligible the projection is the empty result, never a default
value. -/
theorem build_target_projection_correct (rows : List Row) (s : ℚ) :
    (∀ tp, build_target_projection rows (some s) = some tp →
      (∀ k, tp.support = some k → k ≤ s ∧
        (∃ row ∈ rows, row.strike = some k ∧ row.pe_context.isSome ∧ k < s) ∧
        (∀ row ∈ rows, ∀ k', row.strike = some k' → row.pe_context.isSome →
          k' < s → k' ≤ k)) ∧
      (∀ k, tp.resistance = some k → s ≤ k ∧
        (∃ row ∈ rows, row.strike = some k ∧ row.ce_context.isSome ∧ s < k) ∧
        (∀ row ∈ rows, ∀ k', row.strike = some k' → row.ce_context.isSome →
          s < k' → k ≤ k'))) ∧
    (build_target_projection rows (some s) = none →
      ∀ row ∈ rows, ∀ k, row.strike = some k →
        (row.pe_context.isSome → ¬ k < s) ∧ (row.ce_context.isSome → ¬ s < k)) := by
  constructor
  · intro tp htp
    simp only [build_target_projection] at htp
    split_ifs at htp with hempty
    injection htp with htp
    subst htp
    constructor
    · intro k hk
      simp only at hk
      obtain ⟨hmem, hub⟩ := max_opt_spec hk
      obtain ⟨row, hrow, hst, hpc, hks⟩ := mem_support_candidates.mp hmem
      refine ⟨le_of_lt hks, ⟨row, hrow, hst, hpc, hks⟩, ?_⟩
      intro row' hrow' k' hst' hpc' hks'
      exact hub k' (mem_support_candidates.mpr ⟨row', hrow', hst', hpc', hks'⟩)
    · intro k hk
      simp only at hk
      obtain ⟨hmem, hlb⟩ := min_opt_spec hk
      obtain ⟨row, hrow, hst, hpc, hks⟩ := mem_resistance_candidates.mp hmem
      refine ⟨le_of_lt hks, ⟨row, hrow, hst, hpc, hks⟩, ?_⟩
      intro row' hrow' k' hst' hpc' hks'
      exact hlb k' (mem_resistance_candidates.mpr ⟨row', hrow', hst', hpc', hks'⟩)
  · intro hnone row hrow k hst
    simp only [build_target_projection] at hnone
    split_ifs at hnone with hempty
    have hsup : support_candidates rows s = [] := max_opt_eq_none.mp hempty.1
    have hres : resistance_candidates rows s = [] := min_opt_eq_none.mp hempty.2
    constructor
    · intro hpc hks
      have : k ∈ support_candidates rows s :=
        mem_support_candidates.mpr ⟨row, hrow, hst, hpc, hks⟩
      rw [hsup] at this
      exact List.not_mem_nil k this
    · intro hpc hks
      have : k ∈ resistance_candidates rows s :=
        mem_resistance_candidates.mpr ⟨row, hrow, hst, hpc, hks⟩
      rw [hres] at this
      exact List.not_mem_nil k this

/-- C1 witness at a concrete input: one row at strike 100 whose put side
carries "Support Zone", spot 105 — the projection's support is 100 ≤ 105,
an eligible strike strictly below spot. -/
theorem build_target_projection_correct_witness :
    (100 : ℚ) ≤ 105 ∧
      (∃ row ∈ [projection_witness_row],
        row.strike = some (100 : ℚ) ∧ row.pe_context.isSome ∧ (100 : ℚ) < 105) := by
  have heval : build_target_projection [projection_witness_row] (some 105) =
      some { support := some 100, resistance := none } := by
    rw [build_target_projection]
    norm_num [support_candidates, resistance_candidates, max_opt, min_opt,
      projection_witness_row]
    intro hcon
    exact Option.noConfusion hcon
  have h := ((build_target_projection_correct [projection_witness_row] 105).1
    { support := some 100, resistance := none } heval).1 100 rfl
  exact ⟨h.1, h.2.1⟩

/-- C8: a payload normalizing to an empty row sequence (in particular one
without `records.data`) makes the summary fail with the same HTTP-502
bad-gateway error class as an acquisition failure, and a successful summary
always carries the full normalized row list — all rows or none. -/
theorem option_chain_summary_all_or_none (fetched : Except String NseJson) :
    (∀ e, fetched = Except.error e →
      option_chain_summary fetched = SummaryResult.httpError 502 e) ∧
    (∀ raw, fetched = Except.ok raw →
      (build_oi_volume_summary raw = [] ↔
        ((raw.records.getD {}).data.getD [] = [])) ∧
      (build_oi_volume_summary raw = [] →
        option_chain_summary fetched =
          SummaryResult.httpError 502 "No option chain data returned from NSE.") ∧
      (build_oi_volume_summary raw ≠ [] →
        option_chain_summary fetched =
          SummaryResult.success (raw.records.getD {}).underlyingValue
            (build_target_projection (build_oi_volume_summary raw)
              (raw.records.getD {}).underlyingValue)
            (build_oi_volume_summary raw))) := by
  constructor
  · intro e he
    subst he
    rfl
  · intro raw hraw
    subst hraw
    refine ⟨?_, ?_, ?_⟩
    · simp only [build_oi_volume_summary]
      exact List.map_eq_nil_iff
    · intro hempty
      simp only [option_chain_summary]
      rw [if_pos hempty]
    · intro hne
      simp only [option_chain_summary]
      rw [if_neg hne]

/-- C8 witness at concrete inputs: an acquisition failure surfaces as
HTTP 502 with its message, and a payload with no `records` (hence no
`records.data` and an empty row sequence) surfaces as the same HTTP 502
error class. -/
theorem option_chain_summary_all_or_none_witness :
    option_chain_summary (Except.error "HTTP 403") =
      SummaryResult.httpError 502 "HTTP 403" ∧
    option_chain_summary (Except.ok {}) =
      SummaryResult.httpError 502 "No option chain data returned from NSE." := by
  constructor
  · exact (option_chain_summary_all_or_none (Except.error "HTTP 403")).1 "HTTP 403" rfl
  · exact ((option_chain_summary_all_or_none (Except.ok {})).2 {} rfl).2.1 rfl

end OiVolume
